import Mathlib

/-!
Shallow embedding of `proxy_litellm.py`, a FastAPI reverse proxy for LiteLLM.

Python dictionaries (query parameters, headers) are modelled as association
lists `List (String × String)` whose keys are unique by construction; Python
dict item assignment `d[k] = v` is `setKey` (overwrite in place if present,
append otherwise), `d.update(e)` is `dictUpdate`, and `dict(pairs)` is
`dictOf`. Python `str.lower()` and `str.startswith(p)` are modelled
character-wise on the string's character data (`pyLower`, `pyStartsWith`);
the source applies them only to ASCII header names and the `"bearer "`
check, where this agrees with CPython. Request bodies and response contents
are byte sequences, modelled as `List Nat` of byte values.
-/

namespace ProxyLitellm

/-- Python `str.lower()`, character-wise case folding of the string data. -/
def pyLower (s : String) : String := ⟨s.data.map Char.toLower⟩

/-- Python `s.startswith(pre)` on the character sequence. -/
def pyStartsWith (s pre : String) : Bool := pre.data.isPrefixOf s.data

/-- Lookup in an association list modelling a Python dict: the value of the
first entry whose key equals `k`, if any (`d.get(k)` / `k in d`). -/
def lookup : List (String × String) → String → Option String
  | [], _ => none
  | p :: ps, k => if p.1 = k then some p.2 else lookup ps k

/-- Python dict item assignment `d[k] = v`: if `k` is present its slot is
overwritten in place (insertion order kept), otherwise `(k, v)` is appended. -/
def setKey : List (String × String) → String → String → List (String × String)
  | [], k, v => [(k, v)]
  | p :: ps, k, v => if p.1 = k then (k, v) :: ps else p :: setKey ps k v

/-- Python `d.update(overlay)`: assign every key/value of `overlay` into `d`
in order, overwriting on key collision (overlay wins). -/
def dictUpdate (d overlay : List (String × String)) : List (String × String) :=
  overlay.foldl (fun acc p => setKey acc p.1 p.2) d

/-- Python `dict(pairs)`: build a dict by assigning each pair in order. -/
def dictOf (pairs : List (String × String)) : List (String × String) :=
  dictUpdate [] pairs

/-- Default of `LITELLM_BASE_URL` (line 56 of the source). -/
def LITELLM_BASE_URL_default : String := "https://llm.api.domain.com/v1"

/-- Default of `DS_APP_ID` (line 57 of the source): the empty string. -/
def DS_APP_ID_default : String := ""

/-- `CUSTOM_HEADERS` (lines 62-73): starting from the empty dict, if
`LITELLM_API_KEY` is non-empty, set `X-LiteLLM-Key` to it, prefixing
`"Bearer "` unless `LITELLM_API_KEY.lower()` already starts with
`"bearer "`; then, if `DS_KEY` is non-empty, set `Authorization` to `DS_KEY`
verbatim. -/
def CUSTOM_HEADERS (LITELLM_API_KEY DS_KEY : String) : List (String × String) :=
  (if LITELLM_API_KEY ≠ "" then
    if ¬ (pyStartsWith (pyLower LITELLM_API_KEY) "bearer ") = true then
      [("X-LiteLLM-Key", "Bearer " ++ LITELLM_API_KEY)]
    else
      [("X-LiteLLM-Key", LITELLM_API_KEY)]
  else []) ++
  (if DS_KEY ≠ "" then [("Authorization", DS_KEY)] else [])

/-- `excluded_header_keys` (lines 143-156): lower-cased header names never
copied from the client request. -/
def excluded_header_keys : List String :=
  ["host", "content-length", "connection", "keep-alive", "proxy-authenticate",
   "proxy-authorization", "te", "trailers", "transfer-encoding", "upgrade",
   "authorization", "x-litellm-key"]

/-- The two credential header names the proxy manages itself (lower-cased),
used to state the noninterference claim. -/
def auth_header_keys : List String := ["authorization", "x-litellm-key"]

/-- The loop at lines 157-159: `forward_headers = {}` then, for each inbound
header, `forward_headers[key] = value` unless `key.lower()` is excluded. -/
def forward_headers (incoming : List (String × String)) : List (String × String) :=
  incoming.foldl
    (fun acc p =>
      if excluded_header_keys.contains (pyLower p.1) then acc
      else setKey acc p.1 p.2) []

/-- Lines 139-163: the headers sent upstream — the filtered inbound headers
overlaid by `forward_headers.update(CUSTOM_HEADERS)`. -/
def outboundHeaders (incoming : List (String × String))
    (LITELLM_API_KEY DS_KEY : String) : List (String × String) :=
  dictUpdate (forward_headers incoming) (CUSTOM_HEADERS LITELLM_API_KEY DS_KEY)

/-- Lines 132-133: `params = dict(request.query_params)` then
`params["app_id"] = DS_APP_ID`. Inbound query parameters are already a
mapping, so `dict(...)` is the identity and only the assignment remains. -/
def outboundParams (query_params : List (String × String))
    (DS_APP_ID : String) : List (String × String) :=
  setKey query_params "app_id" DS_APP_ID

/-- Line 129: `target_url = f"{LITELLM_BASE_URL}{full_path}"`. -/
def target_url (LITELLM_BASE_URL full_path : String) : String :=
  LITELLM_BASE_URL ++ full_path

/-- UTF-8 byte values of a string, for plain-text response bodies. -/
def strBytes (s : String) : List Nat := s.toUTF8.toList.map (fun b => b.toNat)

/-- The reply of a completed upstream HTTP call (httpx response). -/
structure UpstreamReply where
  status_code : Nat
  headers : List (String × String)
  content : List Nat
deriving DecidableEq

/-- Outcome of the outbound call at lines 168-198: success, an
`httpx.RequestError` (transport failure), or any other exception. The two
error constructors carry the exception's printed representation. -/
inductive Outcome where
  | ok : UpstreamReply → Outcome
  | requestError : String → Outcome
  | unexpectedError : String → Outcome

/-- The response the handler returns to the client (FastAPI `Response`);
a `Response` built without a `headers` argument carries no handler-set
headers, modelled as `[]`. -/
structure ProxyResponse where
  status_code : Nat
  headers : List (String × String)
  content : List Nat
deriving DecidableEq

/-- The outbound request issued at lines 173-180: method, target URL, query
parameters, headers and unmodified body. -/
structure OutboundRequest where
  method : String
  url : String
  params : List (String × String)
  headers : List (String × String)
  content : List Nat

/-- Lines 129-163: the outbound request `generic_proxy_handler` builds from
the configuration and the inbound request. -/
def buildOutbound (LITELLM_BASE_URL DS_APP_ID DS_KEY LITELLM_API_KEY : String)
    (method full_path : String) (query_params headers : List (String × String))
    (body : List Nat) : OutboundRequest :=
  { method := method
    url := target_url LITELLM_BASE_URL full_path
    params := outboundParams query_params DS_APP_ID
    headers := outboundHeaders headers LITELLM_API_KEY DS_KEY
    content := body }

/-- Lines 186-198: on success return the upstream's content, status code and
`dict(response.headers)`; on `httpx.RequestError` or any other exception
return status 500 with a plain-text body naming the error. -/
def relayResponse (outcome : Outcome) : ProxyResponse :=
  match outcome with
  | .ok r =>
    { status_code := r.status_code, headers := dictOf r.headers,
      content := r.content }
  | .requestError msg =>
    { status_code := 500, headers := [],
      content := strBytes ("Error proxying request: " ++ msg) }
  | .unexpectedError msg =>
    { status_code := 500, headers := [],
      content := strBytes ("An unexpected error occurred: " ++ msg) }

/-- `generic_proxy_handler` (lines 111-198): build the outbound request,
issue it (the network is an oracle from outbound request to `Outcome`), and
relay the outcome to the client. -/
def generic_proxy_handler
    (LITELLM_BASE_URL DS_APP_ID DS_KEY LITELLM_API_KEY : String)
    (method full_path : String) (query_params headers : List (String × String))
    (body : List Nat) (upstream : OutboundRequest → Outcome) : ProxyResponse :=
  relayResponse (upstream (buildOutbound LITELLM_BASE_URL DS_APP_ID DS_KEY
    LITELLM_API_KEY method full_path query_params headers body))

/-- `read_root` (lines 99-104): the fixed payload of `GET /`. -/
def read_root : List (String × String) :=
  [("message", "Proxy service is running. Use POST /v1 to send requests to LiteLLM.")]

/-- `GET /` response: FastAPI returns the handler's dict as JSON with its
default status code 200. -/
def read_root_response : Nat × List (String × String) := (200, read_root)

/-- The spec's recipe for the outbound headers, written from its words:
"start from inbound headers, drop every key whose lower-cased form is in
`ExcludedHeaderSet`, then set every key in `OutboundHeaderSet` (overwriting
if already present after filtering)". -/
def specOutboundHeaders (H : List (String × String))
    (LITELLM_API_KEY DS_KEY : String) : List (String × String) :=
  dictUpdate (H.filter fun p => !excluded_header_keys.contains (pyLower p.1))
    (CUSTOM_HEADERS LITELLM_API_KEY DS_KEY)

/-! ### Dictionary lemmas -/

theorem lookup_setKey_self (m : List (String × String)) (k v : String) :
    lookup (setKey m k v) k = some v := by
  induction m with
  | nil => simp [setKey, lookup]
  | cons p ps ih =>
    by_cases h : p.1 = k
    · simp [setKey, h, lookup]
    · simp [setKey, h, lookup, ih]

theorem lookup_setKey_ne (m : List (String × String)) (k v k' : String)
    (h : k' ≠ k) : lookup (setKey m k v) k' = lookup m k' := by
  induction m with
  | nil => simp [setKey, lookup, Ne.symm h]
  | cons p ps ih =>
    by_cases hp : p.1 = k
    · simp [setKey, hp, lookup, Ne.symm h]
    · simp [setKey, hp, lookup, ih]

theorem keys_setKey (m : List (String × String)) (k v : String) :
    (setKey m k v).map Prod.fst =
      if k ∈ m.map Prod.fst then m.map Prod.fst
      else m.map Prod.fst ++ [k] := by
  induction m with
  | nil => simp [setKey]
  | cons p ps ih =>
    by_cases hp : p.1 = k
    · simp [setKey, hp]
    · by_cases hk : k ∈ ps.map Prod.fst <;>
        simp [setKey, hp, ih, hk, Ne.symm hp]

theorem setKey_of_not_mem (m : List (String × String)) (k v : String)
    (h : k ∉ m.map Prod.fst) : setKey m k v = m ++ [(k, v)] := by
  induction m with
  | nil => simp [setKey]
  | cons p ps ih =>
    simp only [List.map_cons, List.mem_cons, not_or] at h
    simp [setKey, Ne.symm h.1, ih h.2]

theorem mem_setKey (m : List (String × String)) (k v : String)
    (q : String × String) : q ∈ setKey m k v → q ∈ m ∨ q = (k, v) := by
  induction m with
  | nil =>
    intro h
    simp [setKey] at h
    simp [h]
  | cons p ps ih =>
    intro h
    by_cases hp : p.1 = k
    · rw [setKey, if_pos hp] at h
      rcases List.mem_cons.mp h with h | h
      · exact Or.inr h
      · exact Or.inl (List.mem_cons_of_mem _ h)
    · rw [setKey, if_neg hp] at h
      rcases List.mem_cons.mp h with h | h
      · exact Or.inl (by simp [h])
      · rcases ih h with h2 | h2
        · exact Or.inl (List.mem_cons_of_mem _ h2)
        · exact Or.inr h2

theorem mem_dictUpdate (m l : List (String × String)) (q : String × String)
    (h : q ∈ dictUpdate m l) : q ∈ m ∨ q ∈ l := by
  induction l generalizing m with
  | nil => exact Or.inl h
  | cons p ps ih =>
    have h' : q ∈ dictUpdate (setKey m p.1 p.2) ps := h
    rcases ih _ h' with h2 | h2
    · rcases mem_setKey _ _ _ _ h2 with h3 | h3
      · exact Or.inl h3
      · refine Or.inr ?_
        rw [h3, Prod.mk.eta]
        exact List.mem_cons_self _ _
    · exact Or.inr (List.mem_cons_of_mem _ h2)

theorem dictUpdate_eq_append (m l : List (String × String))
    (hl : (l.map Prod.fst).Nodup)
    (hd : ∀ k ∈ l.map Prod.fst, k ∉ m.map Prod.fst) :
    dictUpdate m l = m ++ l := by
  induction l generalizing m with
  | nil => simp [dictUpdate]
  | cons p ps ih =>
    simp only [List.map_cons, List.nodup_cons] at hl
    have h1 : p.1 ∉ m.map Prod.fst := hd p.1 (by simp)
    have step : dictUpdate m (p :: ps) = dictUpdate (setKey m p.1 p.2) ps := rfl
    rw [step, setKey_of_not_mem _ _ _ h1, Prod.mk.eta]
    rw [ih (m ++ [p]) hl.2 ?_]
    · simp
    · intro k hk
      have hkm : k ∉ m.map Prod.fst := hd k (by simp [hk])
      have hkp : k ≠ p.1 := fun e => hl.1 (e ▸ hk)
      simp [hkm, hkp]

theorem dictOf_eq_self (l : List (String × String))
    (hl : (l.map Prod.fst).Nodup) : dictOf l = l := by
  unfold dictOf
  rw [dictUpdate_eq_append [] l hl (by simp)]
  simp

theorem foldl_setKey_filter (pred : String × String → Bool)
    (l m : List (String × String)) :
    l.foldl (fun acc p => if pred p then acc else setKey acc p.1 p.2) m =
      dictUpdate m (l.filter fun p => !pred p) := by
  induction l generalizing m with
  | nil => rfl
  | cons p ps ih =>
    by_cases h : pred p = true
    · simp [List.foldl_cons, List.filter_cons, h, ih]
    · simp only [Bool.not_eq_true] at h
      simp only [List.foldl_cons, List.filter_cons, h, Bool.not_false,
        if_true, if_false, Bool.false_eq_true]
      rw [ih]
      rfl

theorem forward_headers_eq (H : List (String × String)) :
    forward_headers H =
      dictOf (H.filter fun p => !excluded_header_keys.contains (pyLower p.1)) := by
  unfold forward_headers dictOf
  exact foldl_setKey_filter _ H []

theorem nodup_filter_keys (H : List (String × String))
    (pred : String × String → Bool) (hH : (H.map Prod.fst).Nodup) :
    ((H.filter pred).map Prod.fst).Nodup :=
  List.Nodup.sublist (List.Sublist.map Prod.fst (List.filter_sublist H)) hH

theorem forward_headers_not_excluded (H : List (String × String))
    (q : String × String) (h : q ∈ forward_headers H) :
    excluded_header_keys.contains (pyLower q.1) = false := by
  rw [forward_headers_eq] at h
  rcases mem_dictUpdate _ _ _ h with h2 | h2
  · simp at h2
  · have := List.of_mem_filter h2
    simpa using this

theorem auth_mem_excluded (s : String) (h : s ∈ auth_header_keys) :
    s ∈ excluded_header_keys := by
  simp only [auth_header_keys, List.mem_cons, List.not_mem_nil, or_false] at h
  rcases h with rfl | rfl <;> simp [excluded_header_keys]

theorem filter_excl_through_auth (H : List (String × String)) :
    (H.filter fun p => !excluded_header_keys.contains (pyLower p.1)) =
      ((H.filter fun p => !auth_header_keys.contains (pyLower p.1)).filter
        fun p => !excluded_header_keys.contains (pyLower p.1)) := by
  rw [List.filter_filter]
  refine (List.filter_congr ?_)
  intro a _
  cases hc : auth_header_keys.contains (pyLower a.1) with
  | false => simp [hc]
  | true =>
    have hm : pyLower a.1 ∈ auth_header_keys := by simpa using hc
    simp [hc, auth_mem_excluded _ hm]

/-! ### Claims -/

/-- C1: the outbound query parameters are the inbound mapping `Q` with
`app_id` set to the configured identity value (overwritten when present,
appended when absent); every other key keeps its value, and no other key is
added or removed. -/
theorem claim_C1_query_params (Q : List (String × String))
    (_hQ : (Q.map Prod.fst).Nodup) (appID : String) :
    lookup (outboundParams Q appID) "app_id" = some appID ∧
    (∀ k, k ≠ "app_id" → lookup (outboundParams Q appID) k = lookup Q k) ∧
    (outboundParams Q appID).map Prod.fst =
      (if "app_id" ∈ Q.map Prod.fst then Q.map Prod.fst
       else Q.map Prod.fst ++ ["app_id"]) :=
  ⟨lookup_setKey_self Q "app_id" appID,
   fun k hk => lookup_setKey_ne Q "app_id" appID k hk,
   keys_setKey Q "app_id" appID⟩

/-- C1 witness at `Q = [("foo","bar"), ("app_id","old")]`, identity
`"abc123"`. -/
theorem claim_C1_witness :
    lookup (outboundParams [("foo", "bar"), ("app_id", "old")] "abc123")
        "app_id" = some "abc123" ∧
    lookup (outboundParams [("foo", "bar"), ("app_id", "old")] "abc123")
        "foo" = some "bar" ∧
    (outboundParams [("foo", "bar"), ("app_id", "old")] "abc123").map Prod.fst
        = ["foo", "app_id"] :=
  have h := claim_C1_query_params [("foo", "bar"), ("app_id", "old")]
    (by decide) "abc123"
  ⟨h.1, (h.2.1 "foo" (by decide)).trans (by decide), h.2.2.trans (by decide)⟩

/-- C2: for an inbound header mapping (unique keys), the outbound headers
are exactly the spec's recipe: drop every entry whose lower-cased key is
excluded, then overlay `CUSTOM_HEADERS`, the overlay winning on collision. -/
theorem claim_C2_outbound_headers (H : List (String × String))
    (hH : (H.map Prod.fst).Nodup) (LITELLM_API_KEY DS_KEY : String) :
    outboundHeaders H LITELLM_API_KEY DS_KEY =
      specOutboundHeaders H LITELLM_API_KEY DS_KEY := by
  unfold outboundHeaders specOutboundHeaders
  rw [forward_headers_eq, dictOf_eq_self _ (nodup_filter_keys H _ hH)]

/-- C2 witness at a concrete inbound header mapping and configuration. -/
theorem claim_C2_witness :
    outboundHeaders [("Accept", "application/json"), ("Authorization", "secret")]
        "sk-123" "ds-key" =
      specOutboundHeaders
        [("Accept", "application/json"), ("Authorization", "secret")]
        "sk-123" "ds-key" :=
  claim_C2_outbound_headers _ (by decide) "sk-123" "ds-key"

/-- C3: `CUSTOM_HEADERS` carries `X-LiteLLM-Key` iff the configured
`LITELLM_API_KEY` is non-empty; its value is the key itself when the key
already starts with a case-insensitive `"bearer "`, and `"Bearer " + key`
otherwise. -/
theorem claim_C3_litellm_key (LITELLM_API_KEY DS_KEY : String) :
    lookup (CUSTOM_HEADERS LITELLM_API_KEY DS_KEY) "X-LiteLLM-Key" =
      if LITELLM_API_KEY = "" then none
      else if pyStartsWith (pyLower LITELLM_API_KEY) "bearer " then
        some LITELLM_API_KEY
      else some ("Bearer " ++ LITELLM_API_KEY) := by
  unfold CUSTOM_HEADERS
  by_cases h1 : LITELLM_API_KEY = ""
  · by_cases h2 : DS_KEY = "" <;> simp [h1, h2, lookup]
  · by_cases h3 : pyStartsWith (pyLower LITELLM_API_KEY) "bearer " = true <;>
      simp [h1, h3, lookup]

/-- C4: `CUSTOM_HEADERS` carries `Authorization` iff the configured `DS_KEY`
is non-empty, and its value is `DS_KEY` verbatim. -/
theorem claim_C4_authorization (LITELLM_API_KEY DS_KEY : String) :
    lookup (CUSTOM_HEADERS LITELLM_API_KEY DS_KEY) "Authorization" =
      if DS_KEY = "" then none else some DS_KEY := by
  unfold CUSTOM_HEADERS
  by_cases h1 : LITELLM_API_KEY = "" <;>
    by_cases h2 : DS_KEY = "" <;>
      by_cases h3 : pyStartsWith (pyLower LITELLM_API_KEY) "bearer " = true <;>
        simp [h1, h2, h3, lookup]

/-- C5 as stated is false: with `LITELLM_API_KEY = "sk-123"` the proxy's own
`X-LiteLLM-Key` header — whose lower-cased form is in the exclusion set —
appears in the outbound headers of the request built from an empty inbound
header mapping. -/
theorem claim_C5_counterexample :
    ¬ (∀ q ∈ outboundHeaders [] "sk-123" "",
        excluded_header_keys.contains (pyLower q.1) = false) := by
  decide

/-- C5 amended: every outbound header entry whose lower-cased key is in the
exclusion set is one of the proxy's own `CUSTOM_HEADERS` entries
(`Authorization` / `X-LiteLLM-Key` with the configured values); no
client-supplied entry with such a key, in any letter casing, survives. -/
theorem claim_C5_amended (H : List (String × String))
    (LITELLM_API_KEY DS_KEY : String) :
    ∀ q ∈ outboundHeaders H LITELLM_API_KEY DS_KEY,
      excluded_header_keys.contains (pyLower q.1) = true →
        q ∈ CUSTOM_HEADERS LITELLM_API_KEY DS_KEY := by
  intro q hq hex
  rcases mem_dictUpdate _ _ _ hq with h | h
  · have hf := forward_headers_not_excluded H q h
    rw [hf] at hex
    cases hex
  · exact h

/-- C5 witness: a client sends `AUTHORIZATION`; the only outbound entry with
an excluded key is the proxy's own `Authorization`. -/
theorem claim_C5_witness :
    ("Authorization", "ds-key") ∈ CUSTOM_HEADERS "sk-123" "ds-key" :=
  claim_C5_amended [("AUTHORIZATION", "evil")] "sk-123" "ds-key"
    ("Authorization", "ds-key") (by decide) (by decide)

/-- C6: the outbound headers do not depend on client-supplied
`Authorization` / `X-LiteLLM-Key` headers — two inbound header mappings that
agree outside those keys (in any letter casing) produce identical outbound
headers. -/
theorem claim_C6_noninterference (H1 H2 : List (String × String))
    (LITELLM_API_KEY DS_KEY : String)
    (h : (H1.filter fun p => !auth_header_keys.contains (pyLower p.1)) =
         (H2.filter fun p => !auth_header_keys.contains (pyLower p.1))) :
    outboundHeaders H1 LITELLM_API_KEY DS_KEY =
      outboundHeaders H2 LITELLM_API_KEY DS_KEY := by
  unfold outboundHeaders
  rw [forward_headers_eq, forward_headers_eq,
    filter_excl_through_auth H1, filter_excl_through_auth H2, h]

/-- C6 witness: one client sends its own `Authorization`, the other instead
an `X-LiteLLM-Key`; the outbound headers coincide. -/
theorem claim_C6_witness :
    outboundHeaders [("Authorization", "client-secret"), ("Accept", "text/plain")]
        "sk-123" "ds-key" =
      outboundHeaders [("Accept", "text/plain"), ("X-LiteLLM-Key", "other")]
        "sk-123" "ds-key" :=
  claim_C6_noninterference _ _ "sk-123" "ds-key" (by decide)

/-- C7: on a successful upstream reply the client receives the upstream's
status code, headers and body unchanged. -/
theorem claim_C7_roundtrip
    (LITELLM_BASE_URL DS_APP_ID DS_KEY LITELLM_API_KEY method full_path : String)
    (query_params headers : List (String × String)) (body : List Nat)
    (r : UpstreamReply) (hr : (r.headers.map Prod.fst).Nodup) :
    generic_proxy_handler LITELLM_BASE_URL DS_APP_ID DS_KEY LITELLM_API_KEY
        method full_path query_params headers body (fun _ => .ok r) =
      { status_code := r.status_code, headers := r.headers,
        content := r.content } := by
  show ProxyResponse.mk r.status_code (dictOf r.headers) r.content = _
  rw [dictOf_eq_self r.headers hr]

/-- C7 witness at a concrete upstream reply. -/
theorem claim_C7_witness :
    generic_proxy_handler "https://llm.api.domain.com/v1" "abc123" "ds-key"
        "sk-123" "POST" "/chat/completions" [] [] [123]
        (fun _ => .ok ⟨200, [("content-type", "application/json")], [34, 111]⟩) =
      { status_code := 200, headers := [("content-type", "application/json")],
        content := [34, 111] } :=
  claim_C7_roundtrip _ _ _ _ _ _ _ _ _ _ (by decide)

/-- C8: a transport failure (`httpx.RequestError`) or any other exception
yields a 500 response whose plain-text body names the error; no upstream
bytes appear in it. -/
theorem claim_C8_errors_give_500
    (LITELLM_BASE_URL DS_APP_ID DS_KEY LITELLM_API_KEY method full_path : String)
    (query_params headers : List (String × String)) (body : List Nat)
    (msg emsg : String) :
    generic_proxy_handler LITELLM_BASE_URL DS_APP_ID DS_KEY LITELLM_API_KEY
        method full_path query_params headers body (fun _ => .requestError msg) =
      { status_code := 500, headers := [],
        content := strBytes ("Error proxying request: " ++ msg) } ∧
    generic_proxy_handler LITELLM_BASE_URL DS_APP_ID DS_KEY LITELLM_API_KEY
        method full_path query_params headers body
        (fun _ => .unexpectedError emsg) =
      { status_code := 500, headers := [],
        content := strBytes ("An unexpected error occurred: " ++ emsg) } :=
  ⟨rfl, rfl⟩

/-- C9: `GET /` always answers 200 with the fixed status payload,
independent of any configuration. -/
theorem claim_C9_read_root :
    read_root_response =
      (200, [("message",
        "Proxy service is running. Use POST /v1 to send requests to LiteLLM.")]) :=
  rfl

/-- C10: `app_id` is injected unconditionally — for every inbound query
mapping the outbound parameters carry `app_id`, and under the default empty
`DS_APP_ID` its value is the empty string rather than the key being
omitted. -/
theorem claim_C10_app_id_always (Q : List (String × String)) (appID : String) :
    lookup (outboundParams Q appID) "app_id" = some appID ∧
    lookup (outboundParams Q DS_APP_ID_default) "app_id" = some "" :=
  ⟨lookup_setKey_self Q "app_id" appID,
   lookup_setKey_self Q "app_id" DS_APP_ID_default⟩

end ProxyLitellm
